import Mathlib

/-!
Shallow embedding of the distance-to-presentation pipeline of
`dynamic-reading-mode.user.js`.  JavaScript numbers are modelled by `ℚ`
except for the sRGB gamma expansion, whose exponent 2.4 forces `ℝ`.
Stateful methods of the `MediaPipeDistanceDetector` class become explicit
state-passing functions.
-/

/-- Per-frame geometric measurements, as built by `calculateFaceMetrics`
(source lines 240-267).  All numeric fields are JavaScript numbers. -/
@[ext] structure FaceMetrics where
  faceWidth : ℚ
  faceHeight : ℚ
  faceWidthToImageRatio : ℚ
  faceHeightToImageRatio : ℚ
  faceCenterX : ℚ
  faceCenterY : ℚ
  imageWidth : ℚ
  imageHeight : ℚ
  timestamp : ℚ
deriving DecidableEq, Repr

/-- Target calibration-frame geometry (source lines 32-37). -/
structure CalibrationFrameConfig where
  width : ℚ
  height : ℚ
  targetFaceRatio : ℚ
  positionTolerance : ℚ
deriving DecidableEq, Repr

/-- The defaults from the constructor (source lines 32-37). -/
def defaultCalibrationFrame : CalibrationFrameConfig :=
  { width := 200, height := 280, targetFaceRatio := 0.5, positionTolerance := 0.2 }

/-- `addToFaceHistory` (source lines 269-274): push, then evict from the
front while the length exceeds `maxHistorySize`. -/
def addToFaceHistory (maxHistorySize : ℕ) (faceHistory : List FaceMetrics)
    (metrics : FaceMetrics) : List FaceMetrics :=
  let pushed := faceHistory ++ [metrics]
  pushed.drop (pushed.length - maxHistorySize)

/-- One accumulation step of the `for (const metrics of this.faceHistory)`
loop in `getSmoothedFaceMetrics` (source lines 292-299). -/
def smoothAccumStep (s m : FaceMetrics) : FaceMetrics :=
  { s with
    faceWidth := s.faceWidth + m.faceWidth
    faceHeight := s.faceHeight + m.faceHeight
    faceWidthToImageRatio := s.faceWidthToImageRatio + m.faceWidthToImageRatio
    faceHeightToImageRatio := s.faceHeightToImageRatio + m.faceHeightToImageRatio
    faceCenterX := s.faceCenterX + m.faceCenterX
    faceCenterY := s.faceCenterY + m.faceCenterY }

/-- `getSmoothedFaceMetrics` (source lines 276-309): `null` on an empty
buffer; otherwise the accumulator starts at zero for the six geometric
fields and copies `imageWidth`, `imageHeight` and `timestamp` from the
last buffered element, the loop sums the six geometric fields, and the
sums are divided by the buffer length. -/
def getSmoothedFaceMetrics (faceHistory : List FaceMetrics) : Option FaceMetrics :=
  if h : faceHistory = [] then none
  else
    let count : ℚ := faceHistory.length
    let last := faceHistory.getLast h
    let init : FaceMetrics :=
      { faceWidth := 0, faceHeight := 0,
        faceWidthToImageRatio := 0, faceHeightToImageRatio := 0,
        faceCenterX := 0, faceCenterY := 0,
        imageWidth := last.imageWidth, imageHeight := last.imageHeight,
        timestamp := last.timestamp }
    let acc := faceHistory.foldl smoothAccumStep init
    some { acc with
      faceWidth := acc.faceWidth / count
      faceHeight := acc.faceHeight / count
      faceWidthToImageRatio := acc.faceWidthToImageRatio / count
      faceHeightToImageRatio := acc.faceHeightToImageRatio / count
      faceCenterX := acc.faceCenterX / count
      faceCenterY := acc.faceCenterY / count }

/-- The eight alignment statuses (string constants in the source). -/
inductive AlignmentStatus
  | noFace
  | tooFar
  | tooClose
  | tooLeft
  | tooRight
  | tooHigh
  | tooLow
  | good
deriving DecidableEq, Repr

open AlignmentStatus

/-- The pure status decision of `checkCalibrationFrameAlignment`
(source lines 311-352): the early `no-face` return for null metrics, the
six boolean tests, and the first-match if chain. -/
def alignmentStatusOf (cfg : CalibrationFrameConfig) :
    Option FaceMetrics → AlignmentStatus
  | none => noFace
  | some faceMetrics =>
    let idealFaceRatio := cfg.targetFaceRatio
    let currentFaceRatio := faceMetrics.faceWidthToImageRatio
    let posTolerance := cfg.positionTolerance
    if currentFaceRatio < idealFaceRatio - idealFaceRatio * 0.5 then tooFar
    else if currentFaceRatio > idealFaceRatio + idealFaceRatio * 0.5 then tooClose
    else if faceMetrics.faceCenterX < -posTolerance then tooLeft
    else if faceMetrics.faceCenterX > posTolerance then tooRight
    else if faceMetrics.faceCenterY < -posTolerance then tooHigh
    else if faceMetrics.faceCenterY > posTolerance then tooLow
    else good

/-- Debounce state of the classifier: `lastCalibrationStatus` starts as
`null` (source line 58) and `statusStabilityCounter` as 0 (line 61). -/
structure ClassifierState where
  lastCalibrationStatus : Option AlignmentStatus
  statusStabilityCounter : ℕ
deriving DecidableEq, Repr

/-- `statusStabilityThreshold` (source line 62). -/
def statusStabilityThreshold : ℕ := 3

/-- Initial debounce state set by the constructor. -/
def initClassifierState : ClassifierState :=
  { lastCalibrationStatus := none, statusStabilityCounter := 0 }

/-- Result of one classifier call: the synchronously returned raw status,
the updated debounce state, and whether `onCalibrationFrameStatus` was
invoked on this frame. -/
structure ClassifierStep where
  status : AlignmentStatus
  state : ClassifierState
  emitted : Bool
deriving DecidableEq, Repr

/-- `checkCalibrationFrameAlignment` (source lines 311-401) as a state
transformer.  Null metrics return `no-face` before the debounce block; a
changed status resets the counter to 0 without notifying; an unchanged
status increments the counter and notifies once the counter reaches
`statusStabilityThreshold`. -/
def checkCalibrationFrameAlignment (cfg : CalibrationFrameConfig)
    (st : ClassifierState) (fm : Option FaceMetrics) : ClassifierStep :=
  match fm with
  | none => { status := noFace, state := st, emitted := false }
  | some m =>
    let status := alignmentStatusOf cfg (some m)
    if st.lastCalibrationStatus ≠ some status then
      { status := status
        state := { lastCalibrationStatus := some status, statusStabilityCounter := 0 }
        emitted := false }
    else
      let counter := st.statusStabilityCounter + 1
      { status := status
        state := { lastCalibrationStatus := some status, statusStabilityCounter := counter }
        emitted := decide (statusStabilityThreshold ≤ counter) }

/-- Calibration state held by the detector (`this.calibration`,
constructor lines 51-56 and the assignments in `calibrate` and
`loadCalibration`).  The `null` fields of the initial state are modelled
as 0. -/
structure Calibration where
  isCalibrated : Bool
  referenceFaceWidth : ℚ
  referenceDistance : ℚ
  referenceFontSize : ℚ
  timestamp : ℚ
deriving DecidableEq, Repr

/-- The uncalibrated state set by the constructor (source lines 51-56). -/
def initialCalibration : Calibration :=
  { isCalibrated := false, referenceFaceWidth := 0, referenceDistance := 0,
    referenceFontSize := 0, timestamp := 0 }

/-- The per-frame sample built by `calculateRelativeDistance`
(source lines 466-487). -/
structure DistanceSample where
  distance : ℚ
  offset : ℚ
  distanceRatio : ℚ
  faceWidth : ℚ
  isCalibrated : Bool
deriving DecidableEq, Repr

/-- `calculateRelativeDistance` (source lines 466-487): uncalibrated or
null metrics yields the neutral sample; otherwise
`ratio = faceWidth / referenceFaceWidth` and
`distance = (1/ratio - 1) * distanceScale`. -/
def calculateRelativeDistance (distanceScale : ℚ) (cal : Calibration)
    (faceMetrics : Option FaceMetrics) : DistanceSample :=
  if cal.isCalibrated = false ∨ faceMetrics = none then
    { distance := 0, offset := 0, distanceRatio := 1,
      faceWidth := match faceMetrics with | some m => m.faceWidth | none => 0,
      isCalibrated := false }
  else
    match faceMetrics with
    | none =>
      { distance := 0, offset := 0, distanceRatio := 1, faceWidth := 0,
        isCalibrated := false }
    | some m =>
      let ratio := m.faceWidth / cal.referenceFaceWidth
      let relativeDistance := (1 / ratio - 1) * distanceScale
      { distance := relativeDistance, offset := relativeDistance,
        distanceRatio := ratio, faceWidth := m.faceWidth, isCalibrated := true }

/-- The corrective instruction chosen by the `switch` in `calibrate`
(source lines 418-439). -/
def misalignmentInstruction : AlignmentStatus → String
  | tooFar => "请靠近一点"
  | tooClose => "请远离一点"
  | tooLeft => "请向右移动"
  | tooRight => "请向左移动"
  | tooHigh => "请向下移动"
  | tooLow => "请向上移动"
  | _ => "请调整位置和距离"

/-- Result of a `calibrate` call: the returned record or thrown error
message, the updated debounce state (the call runs
`checkCalibrationFrameAlignment`), the calibration state afterwards, and
the record written to `localStorage` (if any). -/
structure CalibrateResult where
  result : Except String Calibration
  classifier : ClassifierState
  calibration : Calibration
  stored : Option Calibration
deriving Repr

/-- `calibrate(fontSize)` (source lines 403-464): throws when the
smoothed metrics are null; computes the raw alignment status and throws
the status-specific instruction unless it is `good`; on success stores,
persists and returns a record whose `referenceFaceWidth` is the smoothed
`faceWidth` and whose `referenceFontSize` is the supplied font size. -/
def calibrate (cfg : CalibrationFrameConfig) (faceHistory : List FaceMetrics)
    (cls : ClassifierState) (cal : Calibration) (fontSize now : ℚ) :
    CalibrateResult :=
  match getSmoothedFaceMetrics faceHistory with
  | none =>
    { result := Except.error "未检测到人脸，无法校准", classifier := cls,
      calibration := cal, stored := none }
  | some metrics =>
    let step := checkCalibrationFrameAlignment cfg cls (some metrics)
    if step.status ≠ good then
      { result := Except.error (misalignmentInstruction step.status),
        classifier := step.state, calibration := cal, stored := none }
    else
      let newCal : Calibration :=
        { isCalibrated := true, referenceFaceWidth := metrics.faceWidth,
          referenceDistance := 0, referenceFontSize := fontSize,
          timestamp := now }
      { result := Except.ok newCal, classifier := step.state,
        calibration := newCal, stored := some newCal }

/-- A parsed stored calibration record as seen by `loadCalibration`:
`none` models a missing (`undefined`) field. -/
structure StoredCalibrationData where
  referenceFaceWidth : Option ℚ
  referenceDistance : Option ℚ
  referenceFontSize : Option ℚ
  timestamp : Option ℚ
deriving DecidableEq, Repr

/-- JavaScript truthiness of an optional number (missing and 0 are
falsy). -/
def jsTruthyNum : Option ℚ → Bool
  | none => false
  | some v => decide (v ≠ 0)

/-- JavaScript `a || d` on an optional number (`undefined` and 0 both
fall back to the default). -/
def jsOrNum (o : Option ℚ) (d : ℚ) : ℚ :=
  match o with
  | none => d
  | some v => if v = 0 then d else v

/-- `loadCalibration` (source lines 523-554): the record is rejected
(returning `false`, leaving the current calibration untouched) when
`referenceFaceWidth` is `undefined` or `timestamp` is falsy; otherwise
the calibration is replaced with `isCalibrated := true` and the stored
values (defaulting `referenceDistance` to 0 and `referenceFontSize` to
16). -/
def loadCalibration (cal : Calibration) (parsedData : StoredCalibrationData) :
    Bool × Calibration :=
  match parsedData.referenceFaceWidth with
  | none => (false, cal)
  | some w =>
    if jsTruthyNum parsedData.timestamp then
      (true,
        { isCalibrated := true, referenceFaceWidth := w,
          referenceDistance := jsOrNum parsedData.referenceDistance 0,
          referenceFontSize := jsOrNum parsedData.referenceFontSize 16,
          timestamp := parsedData.timestamp.getD 0 })
    else (false, cal)

/-- Presentation-mapper font state (constructor lines 585-604 and the
fields mutated by `handleStableFontAdjustment`). -/
structure FontState where
  baseFontSize : ℚ
  currentFontSize : ℚ
  lastStableDistance : ℚ
  fontChangeThreshold : ℚ
  deadZoneRadius : ℚ
  deadZoneCenter : ℚ
  deadZoneStableTime : ℚ
  lastDistanceChangeTime : ℚ
deriving DecidableEq, Repr

/-- `calculateFontSizeMultiplier` (source lines 1315-1329):
`clamp(1 + distance * 1.5 * 0.8 / 100, 0.6, 2.5)`. -/
def calculateFontSizeMultiplier (distance : ℚ) : ℚ :=
  let scale : ℚ := 1.5
  let multiplier := 1 + distance * scale * 0.8 / 100
  max 0.6 (min 2.5 multiplier)

/-- The candidate font size computed inside `handleStableFontAdjustment`
(source lines 1192-1195): `clamp(base * multiplier, 12, 32)`. -/
def candidateFontSize (st : FontState) (distance : ℚ) : ℚ :=
  max 12 (min 32 (st.baseFontSize * calculateFontSizeMultiplier distance))

/-- `handleStableFontAdjustment(distance)` (source lines 1134-1240) at
wall-clock time `now`: return unchanged inside the dead zone; otherwise
possibly recenter the dead zone, stamp the change time, and commit a new
font size only when both the distance delta and the font delta pass
their thresholds. -/
def handleStableFontAdjustment (st : FontState) (distance now : ℚ) : FontState :=
  let distanceFromDeadZoneCenter := |distance - st.deadZoneCenter|
  if distanceFromDeadZoneCenter ≤ st.deadZoneRadius then st
  else
    let st1 :=
      if now - st.lastDistanceChangeTime > st.deadZoneStableTime then
        { st with deadZoneCenter := distance }
      else st
    let st2 := { st1 with lastDistanceChangeTime := now }
    let distanceChange := |distance - st2.lastStableDistance|
    if distanceChange ≥ st2.fontChangeThreshold then
      let fontSizeMultiplier := calculateFontSizeMultiplier distance
      let newFontSize := max 12 (min 32 (st2.baseFontSize * fontSizeMultiplier))
      let fontSizeChange := |newFontSize - st2.currentFontSize|
      if fontSizeChange ≥ 0.2 then
        { st2 with currentFontSize := newFontSize, lastStableDistance := distance }
      else st2
    else st2

/-- `calculateContrastAdjustment(distance)` (source lines 1516-1544):
normalize by `* 2 / 100`, interpolate below toward 3.5 and above toward
9.0 over a ±0.5 window, then clamp to [3.5, 9.0]. -/
def calculateContrastAdjustment (distance : ℚ) : ℚ :=
  let scale : ℚ := 2.0
  let normalizedDistance := distance * scale / 100
  let minRatio : ℚ := 3.5
  let maxRatio : ℚ := 9.0
  let baseRatio : ℚ := 6.0
  let targetRatio :=
    if normalizedDistance ≤ 0 then
      let factor := max (-1) (normalizedDistance / 0.5)
      baseRatio + (minRatio - baseRatio) * |factor|
    else
      let factor := min 1 (normalizedDistance / 0.5)
      baseRatio + (maxRatio - baseRatio) * factor
  max minRatio (min maxRatio targetRatio)

/-- An 8-bit-per-channel color, the value of parsing `#rrggbb`. -/
structure RgbColor where
  r : ℕ
  g : ℕ
  b : ℕ
deriving DecidableEq, Repr

/-- Value of a single hexadecimal digit character, as `parseInt(_, 16)`
reads it. -/
def hexDigitVal (c : Char) : Option ℕ :=
  if 48 ≤ c.toNat ∧ c.toNat ≤ 57 then some (c.toNat - 48)
  else if 97 ≤ c.toNat ∧ c.toNat ≤ 102 then some (c.toNat - 97 + 10)
  else if 65 ≤ c.toNat ∧ c.toNat ≤ 70 then some (c.toNat - 65 + 10)
  else none

/-- Value of a two-digit hexadecimal substring. -/
def hexPairVal (a b : Char) : Option ℕ := do
  let x ← hexDigitVal a
  let y ← hexDigitVal b
  pure (16 * x + y)

/-- Parse a `#rrggbb` string into its three channels, the combined
effect of the three `parseInt(hex.substr(..), 16)` calls in
`calculateRelativeLuminance` (source lines 1681-1683) on a well-formed
hex color string. -/
def hexToRgb (s : String) : Option RgbColor :=
  match s.toList with
  | ['#', r1, r2, g1, g2, b1, b2] => do
    let r ← hexPairVal r1 r2
    let g ← hexPairVal g1 g2
    let b ← hexPairVal b1 b2
    pure { r := r, g := g, b := b }
  | _ => none

/-- sRGB gamma expansion of one channel in [0,1] (source lines
1685-1690): `c ≤ 0.03928 ? c / 12.92 : ((c + 0.055) / 1.055) ^ 2.4`. -/
noncomputable def srgbLinear (c : ℝ) : ℝ :=
  if c ≤ 0.03928 then c / 12.92 else ((c + 0.055) / 1.055) ^ (2.4 : ℝ)

/-- `calculateRelativeLuminance` on a parsed color (source lines
1680-1693): WCAG luminance of the gamma-expanded channels. -/
noncomputable def calculateRelativeLuminance (c : RgbColor) : ℝ :=
  let r : ℝ := (c.r : ℝ) / 255
  let g : ℝ := (c.g : ℝ) / 255
  let b : ℝ := (c.b : ℝ) / 255
  0.2126 * srgbLinear r + 0.7152 * srgbLinear g + 0.0722 * srgbLinear b

/-- `calculateContrastRatio` on parsed colors (source lines 1695-1703):
`(lighter + 0.05) / (darker + 0.05)`. -/
noncomputable def calculateContrastRatio (color1 color2 : RgbColor) : ℝ :=
  let l1 := calculateRelativeLuminance color1
  let l2 := calculateRelativeLuminance color2
  let lighter := max l1 l2
  let darker := min l1 l2
  (lighter + 0.05) / (darker + 0.05)

/-- `calculateContrastRatio` on the hex strings the source passes in;
`none` when either string is not a well-formed `#rrggbb` color. -/
noncomputable def calculateContrastRatioHex (s1 s2 : String) : Option ℝ :=
  match hexToRgb s1, hexToRgb s2 with
  | some c1, some c2 => some (calculateContrastRatio c1 c2)
  | _, _ => none

/-- Reduction of `calculateRelativeDistance` in the calibrated case. -/
theorem calculateRelativeDistance_calibrated (distanceScale : ℚ)
    (cal : Calibration) (m : FaceMetrics) (hcal : cal.isCalibrated = true) :
    calculateRelativeDistance distanceScale cal (some m) =
      { distance := (1 / (m.faceWidth / cal.referenceFaceWidth) - 1) * distanceScale,
        offset := (1 / (m.faceWidth / cal.referenceFaceWidth) - 1) * distanceScale,
        distanceRatio := m.faceWidth / cal.referenceFaceWidth,
        faceWidth := m.faceWidth, isCalibrated := true } := by
  simp [calculateRelativeDistance, hcal]

/-- Claim C1: uncalibrated input or absent smoothed metrics yields the
neutral sample (distance 0, ratio 1, isCalibrated false); calibrated
input with reference width r and smoothed faceWidth w yields
distanceRatio = w/r and distance = (1/(w/r) - 1) * 100, so w = r gives
distance 0, w = 2r gives -50, w > r gives negative distance and w < r
gives positive distance. -/
theorem calculateRelativeDistance_spec (cal : Calibration) (m : FaceMetrics) :
    (∀ fm, cal.isCalibrated = false →
      (calculateRelativeDistance 100 cal fm).distance = 0 ∧
      (calculateRelativeDistance 100 cal fm).distanceRatio = 1 ∧
      (calculateRelativeDistance 100 cal fm).isCalibrated = false) ∧
    ((calculateRelativeDistance 100 cal none).distance = 0 ∧
      (calculateRelativeDistance 100 cal none).distanceRatio = 1 ∧
      (calculateRelativeDistance 100 cal none).isCalibrated = false) ∧
    (cal.isCalibrated = true →
      (calculateRelativeDistance 100 cal (some m)).distanceRatio
          = m.faceWidth / cal.referenceFaceWidth ∧
      (calculateRelativeDistance 100 cal (some m)).distance
          = (1 / (m.faceWidth / cal.referenceFaceWidth) - 1) * 100) ∧
    (cal.isCalibrated = true → cal.referenceFaceWidth ≠ 0 →
      m.faceWidth = cal.referenceFaceWidth →
      (calculateRelativeDistance 100 cal (some m)).distance = 0) ∧
    (cal.isCalibrated = true → cal.referenceFaceWidth ≠ 0 →
      m.faceWidth = 2 * cal.referenceFaceWidth →
      (calculateRelativeDistance 100 cal (some m)).distance = -50) ∧
    (cal.isCalibrated = true → 0 < cal.referenceFaceWidth →
      cal.referenceFaceWidth < m.faceWidth →
      (calculateRelativeDistance 100 cal (some m)).distance < 0) ∧
    (cal.isCalibrated = true → 0 < m.faceWidth →
      m.faceWidth < cal.referenceFaceWidth →
      0 < (calculateRelativeDistance 100 cal (some m)).distance) := by
  refine ⟨?_, ?_, ?_, ?_, ?_, ?_, ?_⟩
  · intro fm hcal
    simp [calculateRelativeDistance, hcal]
  · simp [calculateRelativeDistance]
  · intro hcal
    simp [calculateRelativeDistance, hcal]
  · intro hcal hr hw
    simp [calculateRelativeDistance, hcal, hw, div_self hr]
  · intro hcal hr hw
    have h2 : (2 : ℚ) * cal.referenceFaceWidth / cal.referenceFaceWidth = 2 := by
      field_simp
    simp [calculateRelativeDistance, hcal, hw, h2]
    norm_num
  · intro hcal hr hlt
    have hw : 0 < m.faceWidth := lt_trans hr hlt
    have hratio : 1 < m.faceWidth / cal.referenceFaceWidth :=
      (one_lt_div hr).2 hlt
    have hratio0 : 0 < m.faceWidth / cal.referenceFaceWidth := div_pos hw hr
    have hinv : 1 / (m.faceWidth / cal.referenceFaceWidth) < 1 :=
      (div_lt_one hratio0).2 hratio
    rw [calculateRelativeDistance_calibrated 100 cal m hcal]
    have : (1 / (m.faceWidth / cal.referenceFaceWidth) - 1) * 100 < 0 := by
      nlinarith
    exact this
  · intro hcal hw hlt
    have hr : 0 < cal.referenceFaceWidth := lt_trans hw hlt
    have hratio : m.faceWidth / cal.referenceFaceWidth < 1 :=
      (div_lt_one hr).2 hlt
    have hratio0 : 0 < m.faceWidth / cal.referenceFaceWidth := div_pos hw hr
    have hinv : 1 < 1 / (m.faceWidth / cal.referenceFaceWidth) :=
      (one_lt_div hratio0).2 hratio
    rw [calculateRelativeDistance_calibrated 100 cal m hcal]
    have : 0 < (1 / (m.faceWidth / cal.referenceFaceWidth) - 1) * 100 := by
      nlinarith
    exact this

/-- Concrete instantiation of `calculateRelativeDistance_spec`:
reference width 2, smoothed width 4 (twice the reference) gives distance
-50. -/
theorem calculateRelativeDistance_spec_witness :
    (calculateRelativeDistance 100
      { isCalibrated := true, referenceFaceWidth := 2, referenceDistance := 0,
        referenceFontSize := 16, timestamp := 0 }
      (some { faceWidth := 4, faceHeight := 0, faceWidthToImageRatio := 0,
              faceHeightToImageRatio := 0, faceCenterX := 0, faceCenterY := 0,
              imageWidth := 0, imageHeight := 0, timestamp := 0 })).distance
      = -50 :=
  (calculateRelativeDistance_spec _ _).2.2.2.2.1 rfl (by norm_num) (by norm_num)

/-- The decision cascade as the spec words it: no-face → too-far
(ratio < target × 0.5) → too-close (ratio > target × 1.5) → too-left →
too-right → too-high → too-low → good.  Written from the spec, for
comparison with `alignmentStatusOf`. -/
def specAlignmentCascade (cfg : CalibrationFrameConfig) :
    Option FaceMetrics → AlignmentStatus
  | none => noFace
  | some m =>
    if m.faceWidthToImageRatio < cfg.targetFaceRatio * 0.5 then tooFar
    else if m.faceWidthToImageRatio > cfg.targetFaceRatio * 1.5 then tooClose
    else if m.faceCenterX < -cfg.positionTolerance then tooLeft
    else if m.faceCenterX > cfg.positionTolerance then tooRight
    else if m.faceCenterY < -cfg.positionTolerance then tooHigh
    else if m.faceCenterY > cfg.positionTolerance then tooLow
    else good

/-- Claim C3: the classifier realizes exactly the first-match precedence
no-face → too-far → too-close → too-left → too-right → too-high →
too-low → good with thresholds target×0.5 and target×1.5; on the default
configuration, ratio = targetFaceRatio with center (0,0) is good, ratio
= targetFaceRatio × 0.4 is too-far, and centerX = tolerance + 0.01 with
nominal other fields is too-right. -/
theorem alignmentStatusOf_precedence :
    (∀ (cfg : CalibrationFrameConfig) (fm : Option FaceMetrics),
      alignmentStatusOf cfg fm = specAlignmentCascade cfg fm) ∧
    alignmentStatusOf defaultCalibrationFrame
      (some { faceWidth := 0, faceHeight := 0, faceWidthToImageRatio := 0.5,
              faceHeightToImageRatio := 0, faceCenterX := 0, faceCenterY := 0,
              imageWidth := 0, imageHeight := 0, timestamp := 0 }) = good ∧
    alignmentStatusOf defaultCalibrationFrame
      (some { faceWidth := 0, faceHeight := 0, faceWidthToImageRatio := 0.2,
              faceHeightToImageRatio := 0, faceCenterX := 0, faceCenterY := 0,
              imageWidth := 0, imageHeight := 0, timestamp := 0 }) = tooFar ∧
    alignmentStatusOf defaultCalibrationFrame
      (some { faceWidth := 0, faceHeight := 0, faceWidthToImageRatio := 0.5,
              faceHeightToImageRatio := 0, faceCenterX := 0.21, faceCenterY := 0,
              imageWidth := 0, imageHeight := 0, timestamp := 0 }) = tooRight := by
  refine ⟨?_, by norm_num [alignmentStatusOf, defaultCalibrationFrame],
    by norm_num [alignmentStatusOf, defaultCalibrationFrame],
    by norm_num [alignmentStatusOf, defaultCalibrationFrame]⟩
  intro cfg fm
  cases fm with
  | none => rfl
  | some m =>
    simp only [alignmentStatusOf, specAlignmentCascade]
    have h1 : cfg.targetFaceRatio - cfg.targetFaceRatio * 0.5
        = cfg.targetFaceRatio * 0.5 := by ring
    have h2 : cfg.targetFaceRatio + cfg.targetFaceRatio * 0.5
        = cfg.targetFaceRatio * 1.5 := by ring
    rw [h1, h2]

/-- Debounce state after classifying a sequence of detected-face frames
(the only way `processFaceMeshResults` reaches the classifier). -/
def runClassifierState (cfg : CalibrationFrameConfig) (st : ClassifierState)
    (frames : List FaceMetrics) : ClassifierState :=
  frames.foldl (fun s m => (checkCalibrationFrameAlignment cfg s (some m)).state) st

/-- Raw statuses of a sequence of frames. -/
def rawStatuses (cfg : CalibrationFrameConfig) (frames : List FaceMetrics) :
    List AlignmentStatus :=
  frames.map (fun m => alignmentStatusOf cfg (some m))

/-- Length of the run of elements equal to `s` at the front of a list. -/
def leadRunLength (s : AlignmentStatus) : List AlignmentStatus → ℕ
  | [] => 0
  | a :: l => if a = s then leadRunLength s l + 1 else 0

/-- Length of the run of elements equal to `s` at the back of a list:
how many consecutive frames ending at the latest one carry status `s`. -/
def trailRunLength (s : AlignmentStatus) (l : List AlignmentStatus) : ℕ :=
  leadRunLength s l.reverse

theorem leadRunLength_cons (s a : AlignmentStatus) (l : List AlignmentStatus) :
    leadRunLength s (a :: l) = if a = s then leadRunLength s l + 1 else 0 := rfl

theorem trailRunLength_append_singleton (s a : AlignmentStatus)
    (l : List AlignmentStatus) :
    trailRunLength s (l ++ [a])
      = if a = s then trailRunLength s l + 1 else 0 := by
  simp [trailRunLength, List.reverse_append, leadRunLength_cons]

theorem rawStatuses_append (cfg : CalibrationFrameConfig)
    (l1 l2 : List FaceMetrics) :
    rawStatuses cfg (l1 ++ l2) = rawStatuses cfg l1 ++ rawStatuses cfg l2 := by
  simp [rawStatuses]

theorem runClassifierState_append_singleton (cfg : CalibrationFrameConfig)
    (st : ClassifierState) (l : List FaceMetrics) (m : FaceMetrics) :
    runClassifierState cfg st (l ++ [m])
      = (checkCalibrationFrameAlignment cfg (runClassifierState cfg st l)
          (some m)).state := by
  simp [runClassifierState, List.foldl_append]

/-- After classifying a nonempty frame sequence from the initial state,
`lastCalibrationStatus` is the raw status of the latest frame and the
stability counter is one less than the length of the trailing run of
identical raw statuses. -/
theorem runClassifierState_invariant (cfg : CalibrationFrameConfig)
    (frames : List FaceMetrics) : ∀ m : FaceMetrics,
    (runClassifierState cfg initClassifierState (frames ++ [m])).lastCalibrationStatus
      = some (alignmentStatusOf cfg (some m)) ∧
    (runClassifierState cfg initClassifierState (frames ++ [m])).statusStabilityCounter + 1
      = trailRunLength (alignmentStatusOf cfg (some m))
          (rawStatuses cfg (frames ++ [m])) := by
  induction frames using List.reverseRecOn with
  | nil =>
    intro m
    refine ⟨?_, ?_⟩
    · simp [runClassifierState, checkCalibrationFrameAlignment, initClassifierState]
    · simp [runClassifierState, checkCalibrationFrameAlignment, initClassifierState,
        trailRunLength, rawStatuses, leadRunLength]
  | append_singleton fr p ih =>
    intro m
    have hprev := ih p
    rw [runClassifierState_append_singleton, runClassifierState_append_singleton]
    rw [runClassifierState_append_singleton] at hprev
    set stp := (checkCalibrationFrameAlignment cfg
      (runClassifierState cfg initClassifierState fr) (some p)).state with hstp
    by_cases heq : alignmentStatusOf cfg (some m) = alignmentStatusOf cfg (some p)
    · have hcond : ¬ stp.lastCalibrationStatus ≠ some (alignmentStatusOf cfg (some m)) := by
        rw [hprev.1, heq]
        simp
      refine ⟨?_, ?_⟩
      · simp [checkCalibrationFrameAlignment, hcond]
      · simp only [checkCalibrationFrameAlignment, if_neg hcond]
        rw [rawStatuses_append cfg (fr ++ [p]) [m]]
        have hm : rawStatuses cfg [m] = [alignmentStatusOf cfg (some m)] := rfl
        rw [hm, trailRunLength_append_singleton, if_pos rfl, heq, ← hprev.2]
    · have hcond : stp.lastCalibrationStatus ≠ some (alignmentStatusOf cfg (some m)) := by
        rw [hprev.1]
        simp
        intro h
        exact heq h.symm
      refine ⟨?_, ?_⟩
      · simp [checkCalibrationFrameAlignment, hcond]
      · simp only [checkCalibrationFrameAlignment, if_pos hcond]
        rw [rawStatuses_append cfg (fr ++ [p]) [m]]
        have hm : rawStatuses cfg [m] = [alignmentStatusOf cfg (some m)] := rfl
        rw [hm, trailRunLength_append_singleton, if_pos rfl]
        have hzero : trailRunLength (alignmentStatusOf cfg (some m))
            (rawStatuses cfg (fr ++ [p])) = 0 := by
          rw [rawStatuses_append cfg fr [p]]
          have hp : rawStatuses cfg [p] = [alignmentStatusOf cfg (some p)] := rfl
          rw [hp, trailRunLength_append_singleton]
          simp
          intro h
          exact absurd h.symm heq
        rw [hzero]

/-- A frame whose smoothed metrics sit exactly on the default target:
ratio 0.5, centered. -/
def goodMetrics : FaceMetrics :=
  { faceWidth := 0, faceHeight := 0, faceWidthToImageRatio := 0.5,
    faceHeightToImageRatio := 0, faceCenterX := 0, faceCenterY := 0,
    imageWidth := 0, imageHeight := 0, timestamp := 0 }

/-- A frame whose smoothed width ratio is 0.4 × target. -/
def tooFarMetrics : FaceMetrics :=
  { faceWidth := 0, faceHeight := 0, faceWidthToImageRatio := 0.2,
    faceHeightToImageRatio := 0, faceCenterX := 0, faceCenterY := 0,
    imageWidth := 0, imageHeight := 0, timestamp := 0 }

theorem alignmentStatusOf_goodMetrics :
    alignmentStatusOf defaultCalibrationFrame (some goodMetrics) = good := by
  norm_num [alignmentStatusOf, defaultCalibrationFrame, goodMetrics]

theorem alignmentStatusOf_tooFarMetrics :
    alignmentStatusOf defaultCalibrationFrame (some tooFarMetrics) = tooFar := by
  norm_num [alignmentStatusOf, defaultCalibrationFrame, tooFarMetrics]

/-- Claim C4: the classifier notifies `onCalibrationFrameStatus` only
once the same raw status has been observed `statusStabilityThreshold`
(3) consecutive times (the trailing run of identical raw statuses at an
emitting frame has length at least the threshold); a single frame whose
status differs from the tracked one resets the stability counter to zero
and does not notify; and the raw status is returned synchronously to the
caller on every frame. -/
theorem classifier_debounce_spec (cfg : CalibrationFrameConfig) :
    (∀ (st : ClassifierState) (fm : Option FaceMetrics),
      (checkCalibrationFrameAlignment cfg st fm).status = alignmentStatusOf cfg fm) ∧
    (∀ (st : ClassifierState) (m : FaceMetrics),
      st.lastCalibrationStatus ≠ some (alignmentStatusOf cfg (some m)) →
      (checkCalibrationFrameAlignment cfg st (some m)).state.statusStabilityCounter = 0 ∧
      (checkCalibrationFrameAlignment cfg st (some m)).emitted = false) ∧
    (∀ (frames : List FaceMetrics) (m : FaceMetrics),
      (checkCalibrationFrameAlignment cfg
          (runClassifierState cfg initClassifierState frames) (some m)).emitted = true →
      statusStabilityThreshold ≤
        trailRunLength (alignmentStatusOf cfg (some m))
          (rawStatuses cfg (frames ++ [m]))) := by
  refine ⟨?_, ?_, ?_⟩
  · intro st fm
    cases fm with
    | none => rfl
    | some m =>
      by_cases h : st.lastCalibrationStatus ≠ some (alignmentStatusOf cfg (some m)) <;>
        simp [checkCalibrationFrameAlignment, h]
  · intro st m h
    simp [checkCalibrationFrameAlignment, h]
  · intro frames m hem
    rcases List.eq_nil_or_concat frames with hnil | ⟨fr, p, rfl⟩
    · subst hnil
      simp [checkCalibrationFrameAlignment, runClassifierState,
        initClassifierState] at hem
    · simp only [List.concat_eq_append] at hem ⊢
      have hinv := runClassifierState_invariant cfg fr p
      set st := runClassifierState cfg initClassifierState (fr ++ [p]) with hst
      by_cases hne : st.lastCalibrationStatus ≠ some (alignmentStatusOf cfg (some m))
      · simp [checkCalibrationFrameAlignment, hne] at hem
      · have hcnt : statusStabilityThreshold ≤ st.statusStabilityCounter + 1 := by
          simp only [checkCalibrationFrameAlignment, if_neg hne] at hem
          exact of_decide_eq_true hem
        have hsame : alignmentStatusOf cfg (some p) = alignmentStatusOf cfg (some m) := by
          push_neg at hne
          rw [hinv.1] at hne
          exact Option.some_injective _ hne
        rw [rawStatuses_append cfg (fr ++ [p]) [m]]
        have hm : rawStatuses cfg [m] = [alignmentStatusOf cfg (some m)] := rfl
        rw [hm, trailRunLength_append_singleton, if_pos rfl, ← hsame, ← hinv.2]
        omega

/-- Concrete instantiation of `classifier_debounce_spec`: a fourth
consecutive good frame notifies and its trailing run (length 4) meets
the threshold 3; and a differing frame resets the counter without
notifying. -/
theorem classifier_debounce_spec_witness :
    (statusStabilityThreshold ≤
      trailRunLength (alignmentStatusOf defaultCalibrationFrame (some goodMetrics))
        (rawStatuses defaultCalibrationFrame
          ([goodMetrics, goodMetrics, goodMetrics] ++ [goodMetrics]))) ∧
    ((checkCalibrationFrameAlignment defaultCalibrationFrame
        { lastCalibrationStatus := some good, statusStabilityCounter := 2 }
        (some tooFarMetrics)).state.statusStabilityCounter = 0 ∧
      (checkCalibrationFrameAlignment defaultCalibrationFrame
        { lastCalibrationStatus := some good, statusStabilityCounter := 2 }
        (some tooFarMetrics)).emitted = false) :=
  ⟨(classifier_debounce_spec defaultCalibrationFrame).2.2
      [goodMetrics, goodMetrics, goodMetrics] goodMetrics
      (by simp [runClassifierState, checkCalibrationFrameAlignment,
        alignmentStatusOf_goodMetrics, initClassifierState,
        statusStabilityThreshold]),
   (classifier_debounce_spec defaultCalibrationFrame).2.1
      { lastCalibrationStatus := some good, statusStabilityCounter := 2 }
      tooFarMetrics
      (by simp [alignmentStatusOf_tooFarMetrics])⟩

/-- Claim C2: a sample inside the dead zone leaves `currentFontSize` and
`lastStableDistance` unchanged; outside it, when the distance delta
reaches `fontChangeThreshold` and the clamped candidate differs from the
current font size by at least 0.2, the candidate (within [12, 32]) is
committed together with `lastStableDistance := d`; in every other case
both fields are left unchanged. -/
theorem handleStableFontAdjustment_spec (st : FontState) (d now : ℚ) :
    (|d - st.deadZoneCenter| ≤ st.deadZoneRadius →
      (handleStableFontAdjustment st d now).currentFontSize = st.currentFontSize ∧
      (handleStableFontAdjustment st d now).lastStableDistance = st.lastStableDistance) ∧
    (¬ |d - st.deadZoneCenter| ≤ st.deadZoneRadius →
      |d - st.lastStableDistance| ≥ st.fontChangeThreshold →
      |candidateFontSize st d - st.currentFontSize| ≥ 0.2 →
      (handleStableFontAdjustment st d now).currentFontSize = candidateFontSize st d ∧
      (handleStableFontAdjustment st d now).lastStableDistance = d ∧
      12 ≤ candidateFontSize st d ∧ candidateFontSize st d ≤ 32) ∧
    (¬ |d - st.deadZoneCenter| ≤ st.deadZoneRadius →
      ¬ |d - st.lastStableDistance| ≥ st.fontChangeThreshold →
      (handleStableFontAdjustment st d now).currentFontSize = st.currentFontSize ∧
      (handleStableFontAdjustment st d now).lastStableDistance = st.lastStableDistance) ∧
    (¬ |d - st.deadZoneCenter| ≤ st.deadZoneRadius →
      ¬ |candidateFontSize st d - st.currentFontSize| ≥ 0.2 →
      (handleStableFontAdjustment st d now).currentFontSize = st.currentFontSize ∧
      (handleStableFontAdjustment st d now).lastStableDistance = st.lastStableDistance) := by
  refine ⟨?_, ?_, ?_, ?_⟩
  · intro hdz
    simp [handleStableFontAdjustment, hdz]
  · intro hdz hdist hfont
    have hub : candidateFontSize st d ≤ 32 :=
      max_le (by norm_num) (min_le_left 32 _)
    refine ⟨?_, ?_, le_max_left 12 _, hub⟩ <;>
    · simp only [handleStableFontAdjustment, if_neg hdz]
      by_cases hrec : now - st.lastDistanceChangeTime > st.deadZoneStableTime <;>
        simp [hrec, hdist, candidateFontSize] at hfont ⊢ <;>
        simp [if_pos hfont]
  · intro hdz hdist
    simp only [handleStableFontAdjustment, if_neg hdz]
    by_cases hrec : now - st.lastDistanceChangeTime > st.deadZoneStableTime <;>
      simp [hrec, hdist]
  · intro hdz hfont
    have hneg : ¬ (0.2 : ℚ) ≤ |candidateFontSize st d - st.currentFontSize| := by
      rw [ge_iff_le] at hfont
      exact hfont
    simp only [candidateFontSize] at hneg
    simp only [handleStableFontAdjustment, if_neg hdz]
    by_cases hrec : now - st.lastDistanceChangeTime > st.deadZoneStableTime <;>
      by_cases hdist : |d - st.lastStableDistance| ≥ st.fontChangeThreshold <;>
        simp [hrec, hdist, hneg]

/-- Concrete instantiation of `handleStableFontAdjustment_spec`: from
the post-calibration state, a sample at distance 10 commits one update
to 16 × 1.12 = 17.92 px and records the new stable distance. -/
theorem handleStableFontAdjustment_spec_witness :
    (handleStableFontAdjustment
      { baseFontSize := 16, currentFontSize := 16, lastStableDistance := 0,
        fontChangeThreshold := 0.5, deadZoneRadius := 2, deadZoneCenter := 0,
        deadZoneStableTime := 1000, lastDistanceChangeTime := 0 }
      10 0).currentFontSize
      = candidateFontSize
          { baseFontSize := 16, currentFontSize := 16, lastStableDistance := 0,
            fontChangeThreshold := 0.5, deadZoneRadius := 2, deadZoneCenter := 0,
            deadZoneStableTime := 1000, lastDistanceChangeTime := 0 } 10 ∧
    (handleStableFontAdjustment
      { baseFontSize := 16, currentFontSize := 16, lastStableDistance := 0,
        fontChangeThreshold := 0.5, deadZoneRadius := 2, deadZoneCenter := 0,
        deadZoneStableTime := 1000, lastDistanceChangeTime := 0 }
      10 0).lastStableDistance = 10 ∧
    12 ≤ candidateFontSize
          { baseFontSize := 16, currentFontSize := 16, lastStableDistance := 0,
            fontChangeThreshold := 0.5, deadZoneRadius := 2, deadZoneCenter := 0,
            deadZoneStableTime := 1000, lastDistanceChangeTime := 0 } 10 ∧
    candidateFontSize
          { baseFontSize := 16, currentFontSize := 16, lastStableDistance := 0,
            fontChangeThreshold := 0.5, deadZoneRadius := 2, deadZoneCenter := 0,
            deadZoneStableTime := 1000, lastDistanceChangeTime := 0 } 10 ≤ 32 :=
  (handleStableFontAdjustment_spec _ 10 0).2.1
    (by norm_num [abs_of_nonneg])
    (by norm_num [abs_of_nonneg])
    (by norm_num [candidateFontSize, calculateFontSizeMultiplier,
      min_def, max_def, abs_of_nonneg])

/-- Unfolded form of `calculateContrastAdjustment`. -/
theorem calculateContrastAdjustment_eq (d : ℚ) :
    calculateContrastAdjustment d
      = max 3.5 (min 9.0
          (if d * 2.0 / 100 ≤ 0 then
            6.0 + (3.5 - 6.0) * |max (-1) (d * 2.0 / 100 / 0.5)|
          else
            6.0 + (9.0 - 6.0) * min 1 (d * 2.0 / 100 / 0.5))) := rfl

/-- Claim C9: the contrast target always lies in [3.5, 9.0]; it equals
the base 6.0 at distance 0, is linear toward 3.5 on the negative window
[-25, 0] and toward 9.0 on the positive window [0, 25], and saturates at
the band edges beyond the window. -/
theorem calculateContrastAdjustment_spec (d : ℚ) :
    (3.5 ≤ calculateContrastAdjustment d ∧ calculateContrastAdjustment d ≤ 9) ∧
    calculateContrastAdjustment 0 = 6 ∧
    (d ≤ -25 → calculateContrastAdjustment d = 3.5) ∧
    (25 ≤ d → calculateContrastAdjustment d = 9) ∧
    (-25 ≤ d → d ≤ 0 → calculateContrastAdjustment d = 6 + d / 10) ∧
    (0 ≤ d → d ≤ 25 → calculateContrastAdjustment d = 6 + 3 * d / 25) := by
  have hdiv1 : d * 2.0 / 100 = d / 50 := by ring
  have hdiv2 : d * 2.0 / 100 / 0.5 = d / 25 := by ring
  refine ⟨⟨?_, ?_⟩, ?_, ?_, ?_, ?_, ?_⟩
  · rw [calculateContrastAdjustment_eq]
    exact le_max_left _ _
  · rw [calculateContrastAdjustment_eq]
    exact max_le (by norm_num) ((min_le_left _ _).trans (by norm_num))
  · rw [calculateContrastAdjustment_eq]
    norm_num
  · intro h
    rw [calculateContrastAdjustment_eq, hdiv2, if_pos (by rw [hdiv1]; linarith)]
    rw [max_eq_left (by linarith : d / 25 ≤ -1)]
    norm_num
  · intro h
    rw [calculateContrastAdjustment_eq, hdiv2,
      if_neg (by rw [hdiv1]; push_neg; linarith)]
    rw [min_eq_left (by linarith : (1 : ℚ) ≤ d / 25)]
    norm_num
  · intro h1 h2
    rw [calculateContrastAdjustment_eq, hdiv2, if_pos (by rw [hdiv1]; linarith)]
    rw [max_eq_right (by linarith : (-1 : ℚ) ≤ d / 25),
      abs_of_nonpos (by linarith : d / 25 ≤ 0)]
    rw [min_eq_right (by linarith : (6.0 : ℚ) + (3.5 - 6.0) * -(d / 25) ≤ 9.0),
      max_eq_right (by linarith : (3.5 : ℚ) ≤ 6.0 + (3.5 - 6.0) * -(d / 25))]
    ring
  · intro h1 h2
    rcases eq_or_lt_of_le h1 with heq | hpos
    · rw [← heq]
      rw [calculateContrastAdjustment_eq]
      norm_num
    · rw [calculateContrastAdjustment_eq, hdiv2,
        if_neg (by rw [hdiv1]; push_neg; linarith)]
      rw [min_eq_right (by linarith : d / 25 ≤ 1)]
      rw [min_eq_right (by linarith : (6.0 : ℚ) + (9.0 - 6.0) * (d / 25) ≤ 9.0),
        max_eq_right (by linarith : (3.5 : ℚ) ≤ 6.0 + (9.0 - 6.0) * (d / 25))]
      ring

/-- Concrete instantiation of `calculateContrastAdjustment_spec`: at
distance -50 (beyond the window) the target saturates at 3.5, and at
distance 12.5 (mid positive window) it is 6 + 1.5 = 7.5. -/
theorem calculateContrastAdjustment_spec_witness :
    calculateContrastAdjustment (-50) = 3.5 ∧
    calculateContrastAdjustment 12.5 = 6 + 3 * 12.5 / 25 :=
  ⟨(calculateContrastAdjustment_spec (-50)).2.2.1 (by norm_num),
   (calculateContrastAdjustment_spec 12.5).2.2.2.2.2 (by norm_num) (by norm_num)⟩

/-- The accumulation loop adds, field by field, the sums of the six
geometric fields and leaves `imageWidth`, `imageHeight` and `timestamp`
untouched. -/
theorem smoothAccum_foldl (hist : List FaceMetrics) (init : FaceMetrics) :
    (hist.foldl smoothAccumStep init).faceWidth
        = init.faceWidth + (hist.map FaceMetrics.faceWidth).sum ∧
    (hist.foldl smoothAccumStep init).faceHeight
        = init.faceHeight + (hist.map FaceMetrics.faceHeight).sum ∧
    (hist.foldl smoothAccumStep init).faceWidthToImageRatio
        = init.faceWidthToImageRatio + (hist.map FaceMetrics.faceWidthToImageRatio).sum ∧
    (hist.foldl smoothAccumStep init).faceHeightToImageRatio
        = init.faceHeightToImageRatio + (hist.map FaceMetrics.faceHeightToImageRatio).sum ∧
    (hist.foldl smoothAccumStep init).faceCenterX
        = init.faceCenterX + (hist.map FaceMetrics.faceCenterX).sum ∧
    (hist.foldl smoothAccumStep init).faceCenterY
        = init.faceCenterY + (hist.map FaceMetrics.faceCenterY).sum ∧
    (hist.foldl smoothAccumStep init).imageWidth = init.imageWidth ∧
    (hist.foldl smoothAccumStep init).imageHeight = init.imageHeight ∧
    (hist.foldl smoothAccumStep init).timestamp = init.timestamp := by
  induction hist generalizing init with
  | nil => simp
  | cons a t ih =>
    obtain ⟨h1, h2, h3, h4, h5, h6, h7, h8, h9⟩ := ih (smoothAccumStep init a)
    simp only [List.foldl_cons, List.map_cons, List.sum_cons]
    exact ⟨by rw [h1]; simp [smoothAccumStep]; ring,
           by rw [h2]; simp [smoothAccumStep]; ring,
           by rw [h3]; simp [smoothAccumStep]; ring,
           by rw [h4]; simp [smoothAccumStep]; ring,
           by rw [h5]; simp [smoothAccumStep]; ring,
           by rw [h6]; simp [smoothAccumStep]; ring,
           by rw [h7]; simp [smoothAccumStep],
           by rw [h8]; simp [smoothAccumStep],
           by rw [h9]; simp [smoothAccumStep]⟩

/-- Closed form of the smoother on a nonempty buffer: the six geometric
fields are sums divided by the length, the other three fields come from
the last element. -/
theorem getSmoothedFaceMetrics_eq (hist : List FaceMetrics) (h : hist ≠ []) :
    getSmoothedFaceMetrics hist = some
      { faceWidth := (hist.map FaceMetrics.faceWidth).sum / hist.length,
        faceHeight := (hist.map FaceMetrics.faceHeight).sum / hist.length,
        faceWidthToImageRatio :=
          (hist.map FaceMetrics.faceWidthToImageRatio).sum / hist.length,
        faceHeightToImageRatio :=
          (hist.map FaceMetrics.faceHeightToImageRatio).sum / hist.length,
        faceCenterX := (hist.map FaceMetrics.faceCenterX).sum / hist.length,
        faceCenterY := (hist.map FaceMetrics.faceCenterY).sum / hist.length,
        imageWidth := (hist.getLast h).imageWidth,
        imageHeight := (hist.getLast h).imageHeight,
        timestamp := (hist.getLast h).timestamp } := by
  obtain ⟨h1, h2, h3, h4, h5, h6, h7, h8, h9⟩ := smoothAccum_foldl hist
    { faceWidth := 0, faceHeight := 0,
      faceWidthToImageRatio := 0, faceHeightToImageRatio := 0,
      faceCenterX := 0, faceCenterY := 0,
      imageWidth := (hist.getLast h).imageWidth,
      imageHeight := (hist.getLast h).imageHeight,
      timestamp := (hist.getLast h).timestamp }
  simp only [getSmoothedFaceMetrics, dif_neg h]
  congr 1
  ext
  · rw [h1]; simp
  · rw [h2]; simp
  · rw [h3]; simp
  · rw [h4]; simp
  · rw [h5]; simp
  · rw [h6]; simp
  · rw [h7]
  · rw [h8]
  · rw [h9]

/-- Claim C7 (amended): on a nonempty buffer the smoother returns the
arithmetic mean of each of the six geometric fields (faceWidth,
faceHeight, the two image ratios, faceCenterX/Y), while `imageWidth`,
`imageHeight` and `timestamp` are copied from the most recent buffered
sample rather than averaged. -/
theorem getSmoothedFaceMetrics_field_means (hist : List FaceMetrics) (h : hist ≠ []) :
    ∃ sm, getSmoothedFaceMetrics hist = some sm ∧
      sm.faceWidth = (hist.map FaceMetrics.faceWidth).sum / hist.length ∧
      sm.faceHeight = (hist.map FaceMetrics.faceHeight).sum / hist.length ∧
      sm.faceWidthToImageRatio
        = (hist.map FaceMetrics.faceWidthToImageRatio).sum / hist.length ∧
      sm.faceHeightToImageRatio
        = (hist.map FaceMetrics.faceHeightToImageRatio).sum / hist.length ∧
      sm.faceCenterX = (hist.map FaceMetrics.faceCenterX).sum / hist.length ∧
      sm.faceCenterY = (hist.map FaceMetrics.faceCenterY).sum / hist.length ∧
      sm.imageWidth = (hist.getLast h).imageWidth ∧
      sm.imageHeight = (hist.getLast h).imageHeight ∧
      sm.timestamp = (hist.getLast h).timestamp :=
  ⟨_, getSmoothedFaceMetrics_eq hist h,
    rfl, rfl, rfl, rfl, rfl, rfl, rfl, rfl, rfl⟩

/-- Concrete instantiation of `getSmoothedFaceMetrics_field_means` on a
two-element buffer. -/
theorem getSmoothedFaceMetrics_field_means_witness :
    ∃ sm, getSmoothedFaceMetrics [goodMetrics, tooFarMetrics] = some sm ∧
      sm.faceWidth
        = ([goodMetrics, tooFarMetrics].map FaceMetrics.faceWidth).sum
            / ([goodMetrics, tooFarMetrics] : List FaceMetrics).length ∧
      sm.faceHeight
        = ([goodMetrics, tooFarMetrics].map FaceMetrics.faceHeight).sum
            / ([goodMetrics, tooFarMetrics] : List FaceMetrics).length ∧
      sm.faceWidthToImageRatio
        = ([goodMetrics, tooFarMetrics].map FaceMetrics.faceWidthToImageRatio).sum
            / ([goodMetrics, tooFarMetrics] : List FaceMetrics).length ∧
      sm.faceHeightToImageRatio
        = ([goodMetrics, tooFarMetrics].map FaceMetrics.faceHeightToImageRatio).sum
            / ([goodMetrics, tooFarMetrics] : List FaceMetrics).length ∧
      sm.faceCenterX
        = ([goodMetrics, tooFarMetrics].map FaceMetrics.faceCenterX).sum
            / ([goodMetrics, tooFarMetrics] : List FaceMetrics).length ∧
      sm.faceCenterY
        = ([goodMetrics, tooFarMetrics].map FaceMetrics.faceCenterY).sum
            / ([goodMetrics, tooFarMetrics] : List FaceMetrics).length ∧
      sm.imageWidth
        = (([goodMetrics, tooFarMetrics] : List FaceMetrics).getLast
            (List.cons_ne_nil _ _)).imageWidth ∧
      sm.imageHeight
        = (([goodMetrics, tooFarMetrics] : List FaceMetrics).getLast
            (List.cons_ne_nil _ _)).imageHeight ∧
      sm.timestamp
        = (([goodMetrics, tooFarMetrics] : List FaceMetrics).getLast
            (List.cons_ne_nil _ _)).timestamp :=
  getSmoothedFaceMetrics_field_means [goodMetrics, tooFarMetrics]
    (List.cons_ne_nil _ _)

/-- Claim C7 as frozen is false: `imageWidth` is not averaged.  On a
buffer of two frames whose image widths are 100 and 200, the smoothed
`imageWidth` is the last sample's 200, not the arithmetic mean 150. -/
theorem smoothed_imageWidth_not_mean_counterexample :
    ∃ sm, getSmoothedFaceMetrics
      [{ faceWidth := 0, faceHeight := 0, faceWidthToImageRatio := 0,
         faceHeightToImageRatio := 0, faceCenterX := 0, faceCenterY := 0,
         imageWidth := 100, imageHeight := 0, timestamp := 0 },
       { faceWidth := 0, faceHeight := 0, faceWidthToImageRatio := 0,
         faceHeightToImageRatio := 0, faceCenterX := 0, faceCenterY := 0,
         imageWidth := 200, imageHeight := 0, timestamp := 0 }] = some sm ∧
      sm.imageWidth = 200 ∧
      (([{ faceWidth := 0, faceHeight := 0, faceWidthToImageRatio := 0,
           faceHeightToImageRatio := 0, faceCenterX := 0, faceCenterY := 0,
           imageWidth := 100, imageHeight := 0, timestamp := 0 },
         { faceWidth := 0, faceHeight := 0, faceWidthToImageRatio := 0,
           faceHeightToImageRatio := 0, faceCenterX := 0, faceCenterY := 0,
           imageWidth := 200, imageHeight := 0, timestamp := 0 }].map
            FaceMetrics.imageWidth).sum / 2 = 150) ∧
      sm.imageWidth ≠ 150 := by
  refine ⟨_, getSmoothedFaceMetrics_eq _ (List.cons_ne_nil _ _), ?_, ?_, ?_⟩
  · rfl
  · norm_num
  · norm_num [List.getLast]

/-- Claim C8: the smoother is exact on a uniform buffer: N identical
copies of a FaceMetrics value smooth to that value, field for field. -/
theorem getSmoothedFaceMetrics_replicate (n : ℕ) (m : FaceMetrics) (h : 0 < n) :
    getSmoothedFaceMetrics (List.replicate n m) = some m := by
  obtain ⟨k, rfl⟩ : ∃ k, n = k + 1 := ⟨n - 1, (Nat.succ_pred_eq_of_pos h).symm⟩
  have hne : List.replicate (k + 1) m ≠ [] := by simp
  rw [getSmoothedFaceMetrics_eq _ hne]
  have hlast : (List.replicate (k + 1) m).getLast hne = m :=
    List.getLast_replicate_succ k m
  have hcast : ((k : ℚ) + 1) ≠ 0 := by positivity
  congr 1
  ext <;>
    simp [hlast, List.map_replicate, List.sum_replicate, nsmul_eq_mul,
      mul_div_assoc, div_self hcast] <;>
    rw [mul_comm, div_mul_cancel₀ _ hcast]

/-- Concrete instantiation of `getSmoothedFaceMetrics_replicate` with a
buffer of three identical frames. -/
theorem getSmoothedFaceMetrics_replicate_witness :
    getSmoothedFaceMetrics (List.replicate 3 goodMetrics) = some goodMetrics :=
  getSmoothedFaceMetrics_replicate 3 goodMetrics (by norm_num)

/-- The raw status is returned unchanged by the debounce wrapper. -/
theorem checkCalibrationFrameAlignment_status (cfg : CalibrationFrameConfig)
    (st : ClassifierState) (fm : Option FaceMetrics) :
    (checkCalibrationFrameAlignment cfg st fm).status = alignmentStatusOf cfg fm := by
  cases fm with
  | none => rfl
  | some m =>
    by_cases h : st.lastCalibrationStatus ≠ some (alignmentStatusOf cfg (some m)) <;>
      simp [checkCalibrationFrameAlignment, h]

/-- A one-element buffer smooths to its single element. -/
theorem getSmoothedFaceMetrics_singleton (m : FaceMetrics) :
    getSmoothedFaceMetrics [m] = some m := by
  rw [getSmoothedFaceMetrics_eq [m] (List.cons_ne_nil _ _)]
  congr 1
  ext <;> simp [List.getLast]

/-- A list of rationals with positive sum has a positive element. -/
theorem exists_pos_of_list_sum_pos (l : List ℚ) (h : 0 < l.sum) :
    ∃ x ∈ l, 0 < x := by
  induction l with
  | nil => simp at h
  | cons a t ih =>
    by_cases ha : 0 < a
    · exact ⟨a, List.mem_cons_self a t, ha⟩
    · rw [List.sum_cons] at h
      push_neg at ha
      have : 0 < t.sum := by linarith
      obtain ⟨x, hx, hpos⟩ := ih this
      exact ⟨x, List.mem_cons_of_mem a hx, hpos⟩

/-- A list of nonnegative rationals containing a positive element has a
positive sum. -/
theorem list_sum_pos_of_nonneg_of_mem_pos (l : List ℚ)
    (hall : ∀ x ∈ l, 0 ≤ x) (x : ℚ) (hx : x ∈ l) (hpos : 0 < x) :
    0 < l.sum := by
  induction l with
  | nil => simp at hx
  | cons a t ih =>
    rw [List.sum_cons]
    rcases List.mem_cons.1 hx with rfl | hmem
    · have : 0 ≤ t.sum := List.sum_nonneg fun y hy => hall y (List.mem_cons_of_mem _ hy)
      linarith
    · have ha : 0 ≤ a := hall a (List.mem_cons_self a t)
      have := ih (fun y hy => hall y (List.mem_cons_of_mem _ hy)) hmem
      linarith

/-- Claim C6: calibration succeeds exactly when smoothed metrics exist
and their raw alignment status is good; failures identify the blocking
misalignment through its specific corrective instruction (the six
instructions are pairwise distinct) and leave the calibration state
unchanged; success writes, persists and returns a record carrying the
smoothed faceWidth and the caller-supplied font size. -/
theorem calibrate_spec (cfg : CalibrationFrameConfig) (hist : List FaceMetrics)
    (cls : ClassifierState) (cal : Calibration) (fontSize now : ℚ) :
    (getSmoothedFaceMetrics hist = none →
      (calibrate cfg hist cls cal fontSize now).result
          = Except.error "未检测到人脸，无法校准" ∧
      (calibrate cfg hist cls cal fontSize now).calibration = cal ∧
      (calibrate cfg hist cls cal fontSize now).stored = none) ∧
    (∀ m, getSmoothedFaceMetrics hist = some m →
      alignmentStatusOf cfg (some m) = good →
      (calibrate cfg hist cls cal fontSize now).result = Except.ok
        { isCalibrated := true, referenceFaceWidth := m.faceWidth,
          referenceDistance := 0, referenceFontSize := fontSize,
          timestamp := now } ∧
      (calibrate cfg hist cls cal fontSize now).calibration =
        { isCalibrated := true, referenceFaceWidth := m.faceWidth,
          referenceDistance := 0, referenceFontSize := fontSize,
          timestamp := now } ∧
      (calibrate cfg hist cls cal fontSize now).stored = some
        { isCalibrated := true, referenceFaceWidth := m.faceWidth,
          referenceDistance := 0, referenceFontSize := fontSize,
          timestamp := now }) ∧
    (∀ m, getSmoothedFaceMetrics hist = some m →
      alignmentStatusOf cfg (some m) ≠ good →
      (calibrate cfg hist cls cal fontSize now).result
          = Except.error (misalignmentInstruction (alignmentStatusOf cfg (some m))) ∧
      (calibrate cfg hist cls cal fontSize now).calibration = cal ∧
      (calibrate cfg hist cls cal fontSize now).stored = none) ∧
    ((∃ rec, (calibrate cfg hist cls cal fontSize now).result = Except.ok rec) ↔
      (∃ m, getSmoothedFaceMetrics hist = some m ∧
        alignmentStatusOf cfg (some m) = good)) ∧
    (∀ s1 s2 : AlignmentStatus, s1 ≠ good → s1 ≠ noFace → s2 ≠ good →
      s2 ≠ noFace → misalignmentInstruction s1 = misalignmentInstruction s2 →
      s1 = s2) := by
  have hnone : getSmoothedFaceMetrics hist = none →
      (calibrate cfg hist cls cal fontSize now).result
          = Except.error "未检测到人脸，无法校准" ∧
      (calibrate cfg hist cls cal fontSize now).calibration = cal ∧
      (calibrate cfg hist cls cal fontSize now).stored = none := by
    intro h
    simp [calibrate, h]
  have hgood : ∀ m, getSmoothedFaceMetrics hist = some m →
      alignmentStatusOf cfg (some m) = good →
      (calibrate cfg hist cls cal fontSize now).result = Except.ok
        { isCalibrated := true, referenceFaceWidth := m.faceWidth,
          referenceDistance := 0, referenceFontSize := fontSize,
          timestamp := now } ∧
      (calibrate cfg hist cls cal fontSize now).calibration =
        { isCalibrated := true, referenceFaceWidth := m.faceWidth,
          referenceDistance := 0, referenceFontSize := fontSize,
          timestamp := now } ∧
      (calibrate cfg hist cls cal fontSize now).stored = some
        { isCalibrated := true, referenceFaceWidth := m.faceWidth,
          referenceDistance := 0, referenceFontSize := fontSize,
          timestamp := now } := by
    intro m hm hg
    simp [calibrate, hm, checkCalibrationFrameAlignment_status, hg]
  have hbad : ∀ m, getSmoothedFaceMetrics hist = some m →
      alignmentStatusOf cfg (some m) ≠ good →
      (calibrate cfg hist cls cal fontSize now).result
          = Except.error (misalignmentInstruction (alignmentStatusOf cfg (some m))) ∧
      (calibrate cfg hist cls cal fontSize now).calibration = cal ∧
      (calibrate cfg hist cls cal fontSize now).stored = none := by
    intro m hm hg
    simp [calibrate, hm, checkCalibrationFrameAlignment_status, hg]
  refine ⟨hnone, hgood, hbad, ?_, ?_⟩
  · constructor
    · rintro ⟨rec, hrec⟩
      rcases hsm : getSmoothedFaceMetrics hist with _ | m
      · rw [(hnone hsm).1] at hrec
        exact absurd hrec (by simp)
      · by_cases hg : alignmentStatusOf cfg (some m) = good
        · exact ⟨m, rfl, hg⟩
        · rw [(hbad m hsm hg).1] at hrec
          exact absurd hrec (by simp)
    · rintro ⟨m, hm, hg⟩
      exact ⟨_, (hgood m hm hg).1⟩
  · intro s1 s2 h1 h2 h3 h4 heq
    cases s1 <;> cases s2 <;>
      first
        | rfl
        | exact absurd rfl h1
        | exact absurd rfl h2
        | exact absurd rfl h3
        | exact absurd rfl h4
        | exact absurd heq (by decide)

/-- A frame consistent with the extractor on a 640×480 image: width 320,
ratio 0.5, centered. -/
def calibratedMetrics : FaceMetrics :=
  { faceWidth := 320, faceHeight := 0, faceWidthToImageRatio := 0.5,
    faceHeightToImageRatio := 0, faceCenterX := 0, faceCenterY := 0,
    imageWidth := 640, imageHeight := 480, timestamp := 0 }

theorem alignmentStatusOf_calibratedMetrics :
    alignmentStatusOf defaultCalibrationFrame (some calibratedMetrics) = good := by
  norm_num [alignmentStatusOf, defaultCalibrationFrame, calibratedMetrics]

/-- Concrete instantiation of `calibrate_spec`: calibrating at font size
16 over a single well-aligned frame succeeds with its faceWidth 320 as
the reference. -/
theorem calibrate_spec_witness :
    (calibrate defaultCalibrationFrame [calibratedMetrics] initClassifierState
        initialCalibration 16 0).result = Except.ok
      { isCalibrated := true, referenceFaceWidth := calibratedMetrics.faceWidth,
        referenceDistance := 0, referenceFontSize := 16, timestamp := 0 } ∧
    (calibrate defaultCalibrationFrame [calibratedMetrics] initClassifierState
        initialCalibration 16 0).calibration =
      { isCalibrated := true, referenceFaceWidth := calibratedMetrics.faceWidth,
        referenceDistance := 0, referenceFontSize := 16, timestamp := 0 } ∧
    (calibrate defaultCalibrationFrame [calibratedMetrics] initClassifierState
        initialCalibration 16 0).stored = some
      { isCalibrated := true, referenceFaceWidth := calibratedMetrics.faceWidth,
        referenceDistance := 0, referenceFontSize := 16, timestamp := 0 } :=
  (calibrate_spec defaultCalibrationFrame [calibratedMetrics] initClassifierState
      initialCalibration 16 0).2.1 calibratedMetrics
    (getSmoothedFaceMetrics_singleton calibratedMetrics)
    alignmentStatusOf_calibratedMetrics

/-- Claim C5 as frozen is false: `loadCalibration` accepts a stored
record whose `referenceFaceWidth` is 0 (it only checks that the field is
not `undefined` and that the timestamp is truthy), producing a reachable
calibrated state whose referenceFaceWidth is not strictly positive. -/
theorem loadCalibration_zero_width_counterexample :
    (loadCalibration initialCalibration
      { referenceFaceWidth := some 0, referenceDistance := none,
        referenceFontSize := none, timestamp := some 1 }).1 = true ∧
    (loadCalibration initialCalibration
      { referenceFaceWidth := some 0, referenceDistance := none,
        referenceFontSize := none, timestamp := some 1 }).2.isCalibrated = true ∧
    ¬ 0 < (loadCalibration initialCalibration
      { referenceFaceWidth := some 0, referenceDistance := none,
        referenceFontSize := none, timestamp := some 1 }).2.referenceFaceWidth := by
  have hload : loadCalibration initialCalibration
      { referenceFaceWidth := some 0, referenceDistance := none,
        referenceFontSize := none, timestamp := some 1 }
      = (true, { isCalibrated := true, referenceFaceWidth := 0,
                 referenceDistance := 0, referenceFontSize := 16,
                 timestamp := 1 }) := by
    norm_num [loadCalibration, jsTruthyNum, jsOrNum]
  rw [hload]
  norm_num

/-- Claim C5 (amended): a calibration produced by a successful
`calibrate()` call has a strictly positive referenceFaceWidth, provided
the buffered frames are extractor-consistent (each frame's width ratio
is faceWidth/imageWidth with positive image width and nonnegative face
width) and the target face ratio is positive; `loadCalibration` only
guarantees the field is present, and while uncalibrated the distance
calculator refuses distance output. -/
theorem calibrate_positive_reference (cfg : CalibrationFrameConfig)
    (hist : List FaceMetrics) (cls : ClassifierState) (cal : Calibration)
    (fontSize now : ℚ) (rec : Calibration)
    (hfields : ∀ m ∈ hist,
      m.faceWidthToImageRatio = m.faceWidth / m.imageWidth ∧
      0 < m.imageWidth ∧ 0 ≤ m.faceWidth)
    (htarget : 0 < cfg.targetFaceRatio)
    (hok : (calibrate cfg hist cls cal fontSize now).result = Except.ok rec) :
    0 < rec.referenceFaceWidth ∧
    initialCalibration.isCalibrated = false ∧
    (∀ (distanceScale : ℚ) (c : Calibration) (fm : Option FaceMetrics),
      c.isCalibrated = false →
      (calculateRelativeDistance distanceScale c fm).isCalibrated = false ∧
      (calculateRelativeDistance distanceScale c fm).distance = 0) := by
  refine ⟨?_, rfl, ?_⟩
  · rcases hsm : getSmoothedFaceMetrics hist with _ | sm
    · simp [calibrate, hsm] at hok
    · have hne : hist ≠ [] := by
        intro hnil
        rw [hnil] at hsm
        simp [getSmoothedFaceMetrics] at hsm
      by_cases hg : alignmentStatusOf cfg (some sm) = good
      · -- success: rec is the freshly written record
        have hrec : rec =
            { isCalibrated := true, referenceFaceWidth := sm.faceWidth,
              referenceDistance := 0, referenceFontSize := fontSize,
              timestamp := now } := by
          simp [calibrate, hsm, checkCalibrationFrameAlignment_status, hg] at hok
          exact hok.symm
        -- good status means the smoothed width ratio clears half the target
        have hratio : cfg.targetFaceRatio - cfg.targetFaceRatio * 0.5
            ≤ sm.faceWidthToImageRatio := by
          by_contra hlt
          push_neg at hlt
          simp only [alignmentStatusOf, if_pos hlt] at hg
          exact absurd hg (by decide)
        have hratio0 : 0 < sm.faceWidthToImageRatio := by
          have : cfg.targetFaceRatio - cfg.targetFaceRatio * 0.5
              = cfg.targetFaceRatio * 0.5 := by ring
          rw [this] at hratio
          nlinarith
        -- the smoothed ratio is the mean of the per-frame ratios
        have hsmeq := getSmoothedFaceMetrics_eq hist hne
        rw [hsmeq] at hsm
        have hsm2 := Option.some_injective _ hsm
        have hlen : (0 : ℚ) < hist.length := by
          have : 0 < hist.length := List.length_pos.2 hne
          exact_mod_cast this
        have hsum : 0 < (hist.map FaceMetrics.faceWidthToImageRatio).sum := by
          have : sm.faceWidthToImageRatio
              = (hist.map FaceMetrics.faceWidthToImageRatio).sum / hist.length := by
            rw [← hsm2]
          rw [this] at hratio0
          by_contra hle
          push_neg at hle
          have : (hist.map FaceMetrics.faceWidthToImageRatio).sum / hist.length ≤ 0 :=
            div_nonpos_of_nonpos_of_nonneg hle (le_of_lt hlen)
          linarith
        -- some frame has a positive ratio, hence a positive face width
        obtain ⟨x, hx, hxpos⟩ := exists_pos_of_list_sum_pos _ hsum
        obtain ⟨mfr, hmem, hfx⟩ := List.mem_map.1 hx
        obtain ⟨hfeq, hiw, hfw⟩ := hfields mfr hmem
        have hmfrpos : 0 < mfr.faceWidth := by
          by_contra hle
          push_neg at hle
          have : mfr.faceWidthToImageRatio ≤ 0 := by
            rw [hfeq]
            exact div_nonpos_of_nonpos_of_nonneg hle (le_of_lt hiw)
          rw [← hfx] at hxpos
          linarith
        -- hence the summed face widths are positive, and so is their mean
        have hwidthsum : 0 < (hist.map FaceMetrics.faceWidth).sum := by
          apply list_sum_pos_of_nonneg_of_mem_pos _ ?_ mfr.faceWidth
            (List.mem_map_of_mem FaceMetrics.faceWidth hmem) hmfrpos
          intro y hy
          obtain ⟨my, hmy, hfy⟩ := List.mem_map.1 hy
          rw [← hfy]
          exact (hfields my hmy).2.2
        have : 0 < sm.faceWidth := by
          have : sm.faceWidth = (hist.map FaceMetrics.faceWidth).sum / hist.length := by
            rw [← hsm2]
          rw [this]
          exact div_pos hwidthsum hlen
        rw [hrec]
        exact this
      · simp [calibrate, hsm, checkCalibrationFrameAlignment_status, hg] at hok
  · intro distanceScale c fm hc
    cases fm with
    | none => simp [calculateRelativeDistance]
    | some m => simp [calculateRelativeDistance, hc]

/-- Concrete instantiation of `calibrate_positive_reference`: calibrating
over one extractor-consistent well-aligned frame (width 320 on a 640-px
image) yields reference width 320 > 0. -/
theorem calibrate_positive_reference_witness :
    0 < ({ isCalibrated := true, referenceFaceWidth := 320,
           referenceDistance := 0, referenceFontSize := 16,
           timestamp := 0 } : Calibration).referenceFaceWidth ∧
    initialCalibration.isCalibrated = false ∧
    (∀ (distanceScale : ℚ) (c : Calibration) (fm : Option FaceMetrics),
      c.isCalibrated = false →
      (calculateRelativeDistance distanceScale c fm).isCalibrated = false ∧
      (calculateRelativeDistance distanceScale c fm).distance = 0) :=
  calibrate_positive_reference defaultCalibrationFrame [calibratedMetrics]
    initClassifierState initialCalibration 16 0
    { isCalibrated := true, referenceFaceWidth := 320, referenceDistance := 0,
      referenceFontSize := 16, timestamp := 0 }
    (by
      intro m hm
      rw [List.mem_singleton] at hm
      subst hm
      norm_num [calibratedMetrics])
    (by norm_num [defaultCalibrationFrame])
    (by
      norm_num [calibrate, getSmoothedFaceMetrics_singleton,
        checkCalibrationFrameAlignment_status,
        alignmentStatusOf_calibratedMetrics, calibratedMetrics,
        alignmentStatusOf, defaultCalibrationFrame])

/-- The gamma expansion of a nonnegative channel is nonnegative. -/
theorem srgbLinear_nonneg (c : ℝ) (h : 0 ≤ c) : 0 ≤ srgbLinear c := by
  unfold srgbLinear
  split
  · positivity
  · positivity

/-- Relative luminance is nonnegative. -/
theorem calculateRelativeLuminance_nonneg (c : RgbColor) :
    0 ≤ calculateRelativeLuminance c := by
  unfold calculateRelativeLuminance
  have h1 := srgbLinear_nonneg ((c.r : ℝ) / 255) (by positivity)
  have h2 := srgbLinear_nonneg ((c.g : ℝ) / 255) (by positivity)
  have h3 := srgbLinear_nonneg ((c.b : ℝ) / 255) (by positivity)
  have : (0 : ℝ) ≤ 0.2126 * srgbLinear ((c.r : ℝ) / 255) :=
    mul_nonneg (by norm_num) h1
  have : (0 : ℝ) ≤ 0.7152 * srgbLinear ((c.g : ℝ) / 255) :=
    mul_nonneg (by norm_num) h2
  have : (0 : ℝ) ≤ 0.0722 * srgbLinear ((c.b : ℝ) / 255) :=
    mul_nonneg (by norm_num) h3
  linarith [mul_nonneg (by norm_num : (0:ℝ) ≤ 0.2126) h1,
    mul_nonneg (by norm_num : (0:ℝ) ≤ 0.7152) h2,
    mul_nonneg (by norm_num : (0:ℝ) ≤ 0.0722) h3]

/-- Claim C10: on well-formed `#rrggbb` hex color strings the contrast
ratio is symmetric in its two arguments and always at least 1, because
it divides the larger luminance plus 0.05 by the smaller plus 0.05 and
luminance is nonnegative. -/
theorem calculateContrastRatio_symm_ge_one (s1 s2 : String) (r : ℝ)
    (h : calculateContrastRatioHex s1 s2 = some r) :
    calculateContrastRatioHex s2 s1 = some r ∧ 1 ≤ r := by
  unfold calculateContrastRatioHex at h ⊢
  cases h1 : hexToRgb s1 with
  | none => rw [h1] at h; exact absurd h (by simp)
  | some c1 =>
    cases h2 : hexToRgb s2 with
    | none => rw [h1, h2] at h; exact absurd h (by simp)
    | some c2 =>
      rw [h1, h2] at h
      have hr : calculateContrastRatio c1 c2 = r := by
        simpa using h
      refine ⟨?_, ?_⟩
      · show some (calculateContrastRatio c2 c1) = some r
        rw [← hr]
        congr 1
        simp only [calculateContrastRatio]
        rw [max_comm, min_comm]
      · rw [← hr]
        simp only [calculateContrastRatio]
        have hl1 := calculateRelativeLuminance_nonneg c1
        have hl2 := calculateRelativeLuminance_nonneg c2
        have hdpos : (0 : ℝ) <
            min (calculateRelativeLuminance c1) (calculateRelativeLuminance c2) + 0.05 := by
          have : (0 : ℝ) ≤ min (calculateRelativeLuminance c1)
              (calculateRelativeLuminance c2) := le_min hl1 hl2
          linarith
        rw [one_le_div hdpos]
        have := min_le_max (a := calculateRelativeLuminance c1)
          (b := calculateRelativeLuminance c2)
        linarith

/-- Concrete instantiation of `calculateContrastRatio_symm_ge_one` on
white and black. -/
theorem calculateContrastRatio_symm_ge_one_witness :
    calculateContrastRatioHex "#000000" "#ffffff"
        = some (calculateContrastRatio
            { r := 255, g := 255, b := 255 } { r := 0, g := 0, b := 0 }) ∧
    1 ≤ calculateContrastRatio
          { r := 255, g := 255, b := 255 } { r := 0, g := 0, b := 0 } :=
  calculateContrastRatio_symm_ge_one "#ffffff" "#000000" _ rfl
